import Mathlib

/-!
Shallow embedding of `src/generate_icon.py` (QuickUnzip icon generator).

Modelling conventions:

* Python `int()` (truncation toward zero) is `pyInt`; Python float literals
  (`0.05`, `0.08`, ...) are modelled by the exact rationals they denote, so
  `int(size * 0.05)` becomes `pyMul size 0.05` over `ℚ`.  All quantities the
  claims touch are far from the sub-ulp boundaries where IEEE doubles and
  exact rationals could disagree.
* A PIL image is `Img`: a side length together with a total pixel map
  `ℤ → ℤ → RGBA`; pixels outside the canvas keep the transparent black that
  `Image.new('RGBA', ...)` starts from, and every drawing operation clips to
  the canvas.  `ImageDraw` in the image's own mode replaces pixel values
  (it does not alpha-composite), so a draw is a functional update that
  repaints the pixels of a region with the fill colour.
* PIL's ellipse and polygon rasterisers are modelled by the ideal filled
  ellipse test and the even-odd rule inside the bounding box; no claim in
  this development depends on their boundary pixels.
* The LANCZOS resampler is PIL library code, not code of this repository;
  the export pipeline is therefore parameterised by an arbitrary
  `Resampler`, and `pilResize` fixes only the result's dimensions, which is
  the PIL guarantee `Image.resize((w, h))` provides.
* The zipper-teeth `while` loop is fuel-bounded; `none` means the fuel ran
  out, which mirrors non-termination of the Python loop (the fuel
  `size + 2` is proved sufficient whenever the loop terminates at all,
  i.e. whenever `tooth_gap ≥ 1`).
* The source builds the image files and the manifest entries in one `for`
  loop; the embedding splits the same per-iteration computations into
  `List.map`s over the same `sizes` list, preserving order.
-/

/-- Python `int()`: truncation toward zero on a rational. -/
def pyInt (q : ℚ) : ℤ := if 0 ≤ q then ⌊q⌋ else ⌈q⌉

/-- Python `int(n * c)` for a natural `n` and a float literal `c`,
with the float literal read as the exact rational it denotes. -/
def pyMul (n : ℕ) (q : ℚ) : ℤ := pyInt (n * q)

abbrev RGB := ℤ × ℤ × ℤ

abbrev RGBA := ℤ × ℤ × ℤ × ℤ

/-- Python tuple concatenation `c + (255,)` used for the teeth fills. -/
def withAlpha (c : RGB) (a : ℤ) : RGBA := (c.1, c.2.1, c.2.2, a)

/-- `color1 = (102, 126, 234)`, the gradient start colour (src line 34). -/
def color1 : RGB := (102, 126, 234)

/-- `color2 = (118, 75, 162)`, the gradient end colour (src line 35). -/
def color2 : RGB := (118, 75, 162)

/-- A PIL RGBA image: side length plus pixel map. -/
structure Img where
  size : ℕ
  pix : ℤ → ℤ → RGBA

/-- The pixel (x, y) lies on the canvas of the given side length. -/
def inBounds (size : ℕ) (x y : ℤ) : Prop :=
  0 ≤ x ∧ x < size ∧ 0 ≤ y ∧ y < size

instance (size : ℕ) (x y : ℤ) : Decidable (inBounds size x y) := by
  unfold inBounds; infer_instance

/-- One pixel of `create_gradient` (src lines 10-17): diagonal ratio
`(x + y) / (2 * size)`, each channel `int(c1 + (c2 - c1) * ratio)`,
alpha 255. -/
def gradPixel (size : ℕ) (c1 c2 : RGB) (x y : ℤ) : RGBA :=
  let ratio : ℚ := ((x : ℚ) + (y : ℚ)) / (2 * (size : ℚ))
  (pyInt ((c1.1 : ℚ) + ((c2.1 : ℚ) - (c1.1 : ℚ)) * ratio),
   pyInt ((c1.2.1 : ℚ) + ((c2.2.1 : ℚ) - (c1.2.1 : ℚ)) * ratio),
   pyInt ((c1.2.2 : ℚ) + ((c2.2.2 : ℚ) - (c1.2.2 : ℚ)) * ratio),
   255)

/-- `create_gradient` (src lines 5-19): a fresh RGBA image whose in-bounds
pixels all receive the gradient colour; out-of-bounds coordinates keep the
transparent black of `Image.new`. -/
def create_gradient (size : ℕ) (c1 c2 : RGB) : Img :=
  ⟨size, fun x y => if inBounds size x y then gradPixel size c1 c2 x y else (0, 0, 0, 0)⟩

/-- `draw.rectangle([x0, y0, x1, y1], fill)`: both corners inclusive,
clipped to the canvas, fill replaces the pixel. -/
def drawRect (i : Img) (x0 y0 x1 y1 : ℤ) (c : RGBA) : Img :=
  ⟨i.size, fun x y =>
    if inBounds i.size x y ∧ x0 ≤ x ∧ x ≤ x1 ∧ y0 ≤ y ∧ y ≤ y1 then c else i.pix x y⟩

/-- Membership in the filled ellipse inscribed in the bounding box
`[x0, y0, x1, y1]` (idealised model of PIL's ellipse rasteriser; stated
with cross-multiplied integer arithmetic, `2*x - (x0+x1)` being twice the
distance from the centre). -/
def inEllipse (x0 y0 x1 y1 x y : ℤ) : Prop :=
  x0 ≤ x ∧ x ≤ x1 ∧ y0 ≤ y ∧ y ≤ y1 ∧
  ((2 * x - (x0 + x1)) * (y1 - y0)) ^ 2 + ((2 * y - (y0 + y1)) * (x1 - x0)) ^ 2
    ≤ ((x1 - x0) * (y1 - y0)) ^ 2

instance (x0 y0 x1 y1 x y : ℤ) : Decidable (inEllipse x0 y0 x1 y1 x y) := by
  unfold inEllipse; infer_instance

/-- `draw.ellipse([x0, y0, x1, y1], fill)`. -/
def drawEllipse (i : Img) (x0 y0 x1 y1 : ℤ) (c : RGBA) : Img :=
  ⟨i.size, fun x y =>
    if inBounds i.size x y ∧ inEllipse x0 y0 x1 y1 x y then c else i.pix x y⟩

/-- Does the edge from `p` to `q` cross the horizontal ray going right from
`(x, y)` (half-open in `y`, cross-multiplied to stay in `ℤ`)? -/
def crossesRay (p q : ℤ × ℤ) (x y : ℤ) : Bool :=
  if p.2 ≤ y ∧ y < q.2 then
    decide ((x - p.1) * (q.2 - p.2) < (q.1 - p.1) * (y - p.2))
  else if q.2 ≤ y ∧ y < p.2 then
    decide ((x - p.1) * (q.2 - p.2) > (q.1 - p.1) * (y - p.2))
  else
    false

/-- Even-odd point-in-polygon test (idealised model of PIL's polygon fill). -/
def inPolygon (pts : List (ℤ × ℤ)) (x y : ℤ) : Bool :=
  (pts.zip (pts.rotate 1)).countP (fun e => crossesRay e.1 e.2 x y) % 2 == 1

/-- `draw.polygon(points, fill)`. -/
def drawPolygon (i : Img) (pts : List (ℤ × ℤ)) (c : RGBA) : Img :=
  ⟨i.size, fun x y =>
    if inBounds i.size x y ∧ inPolygon pts x y then c else i.pix x y⟩

/-- `draw_rounded_rect` (src lines 21-29): two strips plus four corner
ellipses, in source order. -/
def draw_rounded_rect (i : Img) (x1 y1 x2 y2 radius : ℤ) (fill : RGBA) : Img :=
  let i1 := drawRect i (x1 + radius) y1 (x2 - radius) y2 fill
  let i2 := drawRect i1 x1 (y1 + radius) x2 (y2 - radius) fill
  let i3 := drawEllipse i2 x1 y1 (x1 + 2 * radius) (y1 + 2 * radius) fill
  let i4 := drawEllipse i3 (x2 - 2 * radius) y1 x2 (y1 + 2 * radius) fill
  let i5 := drawEllipse i4 x1 (y2 - 2 * radius) (x1 + 2 * radius) y2 fill
  drawEllipse i5 (x2 - 2 * radius) (y2 - 2 * radius) x2 y2 fill

/-- `center = size // 2` (src line 42). -/
def centerOf (size : ℕ) : ℤ := (size : ℤ).fdiv 2

/-- `box_size = int(size * 0.5)` (src line 46). -/
def box_size (size : ℕ) : ℤ := pyMul size 0.5

/-- `box_left = center - box_size // 2` (src line 47). -/
def box_left (size : ℕ) : ℤ := centerOf size - (box_size size).fdiv 2

/-- `box_top = center - box_size // 2 + int(size * 0.05)` (src line 48). -/
def box_top (size : ℕ) : ℤ := centerOf size - (box_size size).fdiv 2 + pyMul size 0.05

/-- `box_right = box_left + box_size` (src line 49). -/
def box_right (size : ℕ) : ℤ := box_left size + box_size size

/-- `box_bottom = box_top + box_size` (src line 50). -/
def box_bottom (size : ℕ) : ℤ := box_top size + box_size size

/-- `zipper_width = int(size * 0.08)` (src line 58). -/
def zipper_width (size : ℕ) : ℤ := pyMul size 0.08

/-- `tooth_height = int(size * 0.04)` (src line 59). -/
def tooth_height (size : ℕ) : ℤ := pyMul size 0.04

/-- `tooth_gap = int(size * 0.06)` (src line 60). -/
def tooth_gap (size : ℕ) : ℤ := pyMul size 0.06

/-- `zipper_top = box_top + int(size * 0.08)` (src line 63). -/
def zipper_top (size : ℕ) : ℤ := box_top size + pyMul size 0.08

/-- `zipper_bottom = box_bottom - int(size * 0.08)` (src line 64). -/
def zipper_bottom (size : ℕ) : ℤ := box_bottom size - pyMul size 0.08

/-- One zipper tooth: the rectangle `[x0, y0, x1, y1]` with its fill. -/
structure Tooth where
  x0 : ℤ
  y0 : ℤ
  x1 : ℤ
  y1 : ℤ
  fill : RGBA
deriving DecidableEq

/-- The tooth drawn at cursor `y` (src lines 70-81): left tooth
`[zipper_x - zipper_width, y, zipper_x - 2, y + tooth_height]` in `color1`
when the toggle is set, otherwise the mirrored right tooth in `color2`. -/
def teethStep (size : ℕ) (y : ℤ) (toggle : Bool) : Tooth :=
  if toggle then
    ⟨centerOf size - zipper_width size, y, centerOf size - 2, y + tooth_height size,
      withAlpha color1 255⟩
  else
    ⟨centerOf size + 2, y, centerOf size + zipper_width size, y + tooth_height size,
      withAlpha color2 255⟩

/-- The zipper-teeth `while` loop (src lines 67-83), fuel-bounded:
while `y < zipper_bottom - tooth_height`, emit a tooth, advance the cursor
by `tooth_gap` and flip the toggle.  `none` means the fuel ran out. -/
def teethLoopAux (size : ℕ) : ℕ → ℤ → Bool → List Tooth → Option (List Tooth)
  | 0, _, _, _ => none
  | fuel + 1, y, toggle, acc =>
    if y < zipper_bottom size - tooth_height size then
      teethLoopAux size fuel (y + tooth_gap size) (!toggle) (acc ++ [teethStep size y toggle])
    else
      some acc

/-- All zipper teeth of `create_icon`, starting at `zipper_top` with a left
tooth; fuel `size + 2` (proved sufficient whenever `tooth_gap ≥ 1`). -/
def zipperTeeth (size : ℕ) : Option (List Tooth) :=
  teethLoopAux size (size + 2) (zipper_top size) true []

/-- `pull_size = int(size * 0.08)` (src line 86). -/
def pull_size (size : ℕ) : ℤ := pyMul size 0.08

/-- `pull_y = zipper_top - pull_size` (src line 87). -/
def pull_y (size : ℕ) : ℤ := zipper_top size - pull_size size

/-- `crown_y = int(size * 0.12)` (src line 94). -/
def crown_y (size : ℕ) : ℤ := pyMul size 0.12

/-- `crown_height = int(size * 0.12)` (src line 95). -/
def crown_height (size : ℕ) : ℤ := pyMul size 0.12

/-- `crown_width = int(size * 0.25)` (src line 96). -/
def crown_width (size : ℕ) : ℤ := pyMul size 0.25

/-- `crown_left = center - crown_width` (src line 99). -/
def crown_left (size : ℕ) : ℤ := centerOf size - crown_width size

/-- `crown_right = center + crown_width` (src line 100). -/
def crown_right (size : ℕ) : ℤ := centerOf size + crown_width size

/-- The seven crown polygon points (src lines 103-111). -/
def crownPoints (size : ℕ) : List (ℤ × ℤ) :=
  [(crown_left size, crown_y size + crown_height size),
   (crown_left size, crown_y size + (crown_height size).fdiv 2),
   (crown_left size + (crown_width size).fdiv 2, crown_y size + crown_height size),
   (centerOf size, crown_y size),
   (crown_right size - (crown_width size).fdiv 2, crown_y size + crown_height size),
   (crown_right size, crown_y size + (crown_height size).fdiv 2),
   (crown_right size, crown_y size + crown_height size)]

/-- `gem_size = int(size * 0.025)` (src line 115). -/
def gem_size (size : ℕ) : ℤ := pyMul size 0.025

/-- `create_icon` (src lines 31-120): gradient background, rounded box,
zipper teeth, gold pull ellipse, gold crown polygon, red gem ellipse, in
source drawing order.  `none` iff the teeth loop ran out of fuel. -/
def create_icon (size : ℕ) : Option Img :=
  (zipperTeeth size).map fun teeth =>
    let img1 := draw_rounded_rect (create_gradient size color1 color2)
      (box_left size) (box_top size) (box_right size) (box_bottom size)
      (pyMul size 0.05) (255, 255, 255, 230)
    let img2 := teeth.foldl (fun im t => drawRect im t.x0 t.y0 t.x1 t.y1 t.fill) img1
    let img3 := drawEllipse img2 (centerOf size - pull_size size) (pull_y size)
      (centerOf size + pull_size size) (pull_y size + pull_size size * 2) (255, 215, 0, 255)
    let img4 := drawPolygon img3 (crownPoints size) (255, 215, 0, 255)
    drawEllipse img4 (centerOf size - gem_size size) (crown_y size + gem_size size)
      (centerOf size + gem_size size) (crown_y size + gem_size size * 3) (255, 100, 100, 255)

/-- The iOS size table of `main` (src lines 124-132): pairs
(logical size, scale); `83.5` is the exact rational 167/2. -/
def sizes : List (ℚ × ℕ) :=
  [(20, 1), (20, 2), (20, 3),
   (29, 1), (29, 2), (29, 3),
   (40, 1), (40, 2), (40, 3),
   (60, 2), (60, 3),
   (76, 1), (76, 2),
   (83.5, 2),
   (1024, 1)]

/-- `actual_size = int(base_size * scale)` (src line 145). -/
def actual_size (p : ℚ × ℕ) : ℤ := pyInt (p.1 * (p.2 : ℚ))

/-- `filename = f"icon_{actual_size}x{actual_size}.png"` (src line 146). -/
def iconFilename (a : ℤ) : String :=
  "icon_" ++ toString a ++ "x" ++ toString a ++ ".png"

/-- The filenames written by the export loop, in iteration order
(src lines 144-146). -/
def outputFilenames : List String :=
  sizes.map fun p => iconFilename (actual_size p)

/-- Python `str()` of the numbers appearing in the size table: integers
print without a decimal point, non-integral halves such as `83.5` with one
decimal digit. -/
def pyNumStr (q : ℚ) : String :=
  if q.den = 1 then toString q.num
  else toString (pyInt q) ++ "." ++ toString (pyInt (q * 10) - pyInt q * 10)

/-- The idiom selection of `main` (src lines 155-157): `"iphone"` for
logical sizes 20, 29, 40, 60, otherwise `"ipad"`, then overridden to
`"ios-marketing"` for logical size 1024. -/
def idiomOf (base_size : ℚ) : String :=
  let idiom := if base_size ∈ [(20 : ℚ), 29, 40, 60] then "iphone" else "ipad"
  if base_size = 1024 then "ios-marketing" else idiom

/-- One manifest entry (src lines 159-164). -/
structure ManifestEntry where
  filename : String
  idiom : String
  scale : String
  sizeStr : String
deriving DecidableEq

/-- The manifest entry appended for one size spec: filename from the
actual size, idiom from the logical size, `f"{scale}x"`,
`f"{base_size}x{base_size}"`. -/
def entryOf (p : ℚ × ℕ) : ManifestEntry :=
  ⟨iconFilename (actual_size p), idiomOf p.1,
   toString p.2 ++ "x", pyNumStr p.1 ++ "x" ++ pyNumStr p.1⟩

/-- The `contents["images"]` array built by the export loop, in iteration
order (src lines 139-164). -/
def contentsImages : List ManifestEntry :=
  sizes.map entryOf

/-- The fixed `contents["info"]` record `{author: "xcode", version: 1}`
(src line 141). -/
def contentsInfo : String × ℕ := ("xcode", 1)

/-- An abstract resampling kernel standing in for PIL's LANCZOS filter
(library code, not part of this repository): given the source image and the
target side length it yields the pixel map of the resized image. -/
def Resampler : Type := Img → ℕ → ℤ → ℤ → RGBA

/-- `master.resize((n, n), Image.LANCZOS)` (src line 150): PIL guarantees
the result has exactly the requested dimensions; the pixel content comes
from the resampling kernel. -/
def pilResize (r : Resampler) (i : Img) (n : ℕ) : Img := ⟨n, r i n⟩

/-- The master canvas of `main` (src line 137): rendered by
`create_icon(1024)` with a hardcoded side length — the size table is passed
here only to exhibit that the master does not depend on it. -/
def renderedMaster (_table : List (ℚ × ℕ)) : Option Img := create_icon 1024

/-- The maximum actual pixel size over a size table. -/
def maxActualSize (table : List (ℚ × ℕ)) : ℤ :=
  (table.map actual_size).foldl max 0

/-- The sequence of image files saved by the export loop (src lines
144-151), as (filename, image) pairs in iteration order. -/
def savedFiles (r : Resampler) : Option (List (String × Img)) :=
  (create_icon 1024).map fun master =>
    sizes.map fun p =>
      (iconFilename (actual_size p), pilResize r master (actual_size p).toNat)

/-- Contents of a file in the output directory: a saved image or the
serialised manifest (stored structurally; `json.dump` is a function of this
structure). -/
inductive FileData where
  | picture (img : Img)
  | manifest (images : List ManifestEntry) (info : String × ℕ)

/-- The output directory as a file-path map. -/
def FS : Type := String → Option FileData

/-- The hardcoded output directory (src line 134). -/
def output_dir : String :=
  "C:\\Users\\Admin\\Desktop\\QuickUnzip\\QuickUnzip\\Assets.xcassets\\AppIcon.appiconset"

/-- `os.path.join` on the Windows path of the source. -/
def pathJoin (d f : String) : String := d ++ "\\" ++ f

/-- Writing a file replaces whatever was at that path. -/
def fsWrite (fs : FS) (p : String) (d : FileData) : FS :=
  fun q => if q = p then some d else fs q

/-- One iteration of the export loop as a file-system write
(src lines 144-151). -/
def saveStep (r : Resampler) (master : Img) (fs : FS) (p : ℚ × ℕ) : FS :=
  fsWrite fs (pathJoin output_dir (iconFilename (actual_size p)))
    (FileData.picture (pilResize r master (actual_size p).toNat))

/-- `main` (src lines 122-171) acting on the output directory: render the
master, write every resized icon, then write `Contents.json`.  `none` iff
rendering the master does not terminate. -/
def runMain (r : Resampler) (fs : FS) : Option FS :=
  (renderedMaster sizes).map fun master =>
    fsWrite (sizes.foldl (saveStep r master) fs)
      (pathJoin output_dir "Contents.json")
      (FileData.manifest contentsImages contentsInfo)

/-- The last write the export loop performs at path `q`, if any (the later
iteration wins, matching overwrite semantics). -/
def lastSave (r : Resampler) (master : Img) (l : List (ℚ × ℕ)) (q : String) :
    Option FileData :=
  match l with
  | [] => none
  | p :: t =>
    Option.or (lastSave r master t q)
      (if q = pathJoin output_dir (iconFilename (actual_size p)) then
        some (FileData.picture (pilResize r master (actual_size p).toNat))
      else
        none)

/-- Spec-side restatement of the idiom classification rule, in the order
the specification gives it: 1024 is the store-listing family overriding
everything, the set {20, 29, 40, 60} is the phone family, everything else
the tablet family. -/
def idiomSpec (b : ℚ) : String :=
  if b = 1024 then "ios-marketing"
  else if b ∈ [(20 : ℚ), 29, 40, 60] then "iphone" else "ipad"

/-- Spec-side description of the `i`-th zipper tooth (0-based), with the
geometry the code actually draws: tooth `i` starts at
`zipper_top + i * tooth_gap`, is `tooth_height` tall, and spans
horizontally from `center - zipper_width` to `center - 2` (a left tooth in
the gradient start colour) for even `i`, mirrored to
`center + 2 … center + zipper_width` in the end colour for odd `i` — so the
drawn width is `zipper_width - 2`, not `zipper_width`. -/
def toothSpec (N : ℕ) (i : ℕ) : Tooth :=
  if i % 2 = 0 then
    ⟨centerOf N - zipper_width N, zipper_top N + (i : ℤ) * tooth_gap N,
     centerOf N - 2, zipper_top N + (i : ℤ) * tooth_gap N + tooth_height N,
     (102, 126, 234, 255)⟩
  else
    ⟨centerOf N + 2, zipper_top N + (i : ℤ) * tooth_gap N,
     centerOf N + zipper_width N, zipper_top N + (i : ℤ) * tooth_gap N + tooth_height N,
     (118, 75, 162, 255)⟩

/-- The empty output directory. -/
def emptyFS : FS := fun _ => none

/-- A pre-populated output directory used to witness determinism. -/
def dirtyFS : FS := fun _ => some (FileData.manifest [] ("", 0))

/-- A trivial resampling kernel used in witnesses. -/
def zeroResampler : Resampler := fun _ _ _ _ => (0, 0, 0, 0)

/-- A fallback image for `Option.getD` in witnesses. -/
def blankImg : Img := ⟨0, fun _ _ => (0, 0, 0, 0)⟩

set_option maxRecDepth 10000

/-! Helper lemmas. -/

theorem pyInt_eq_floor (q : ℚ) (h : 0 ≤ q) : pyInt q = ⌊q⌋ := by
  simp [pyInt, h]

theorem pyMul_nonneg (n : ℕ) (q : ℚ) (h : 0 ≤ q) : 0 ≤ pyMul n q := by
  rw [pyMul, pyInt_eq_floor _ (by positivity)]
  exact Int.le_floor.mpr (by positivity)

theorem pyMul_le_self (n : ℕ) (q : ℚ) (h0 : 0 ≤ q) (h1 : q ≤ 1) : pyMul n q ≤ (n : ℤ) := by
  rw [pyMul, pyInt_eq_floor _ (by positivity)]
  calc ⌊(n : ℚ) * q⌋ ≤ ⌊(n : ℚ)⌋ :=
        Int.floor_le_floor (mul_le_of_le_one_right (Nat.cast_nonneg n) h1)
    _ = (n : ℤ) := Int.floor_natCast n

theorem tooth_gap_one_iff (N : ℕ) : 1 ≤ tooth_gap N ↔ 17 ≤ N := by
  rw [tooth_gap, pyMul, pyInt_eq_floor _ (by positivity), Int.le_floor]
  push_cast
  constructor
  · intro h
    by_contra hc
    push_neg at hc
    have h16 : (N : ℚ) ≤ 16 := by exact_mod_cast Nat.le_of_lt_succ hc
    nlinarith
  · intro h
    have h17 : (17 : ℚ) ≤ (N : ℚ) := by exact_mod_cast h
    nlinarith

theorem teethLoopAux_some (N : ℕ) (hgap : 1 ≤ tooth_gap N) :
    ∀ (fuel : ℕ) (y : ℤ) (togg : Bool) (acc : List Tooth),
      (zipper_bottom N - tooth_height N - y).toNat < fuel →
      (teethLoopAux N fuel y togg acc).isSome := by
  intro fuel
  induction fuel with
  | zero =>
    intro y togg acc h
    omega
  | succ n ih =>
    intro y togg acc h
    rw [teethLoopAux]
    split
    · exact ih _ _ _ (by omega)
    · simp

theorem zipperTeeth_some_of_gap (N : ℕ) (hgap : 1 ≤ tooth_gap N) :
    (zipperTeeth N).isSome := by
  apply teethLoopAux_some N hgap
  have h1 : 0 ≤ pyMul N 0.08 := pyMul_nonneg _ _ (by norm_num)
  have h2 : 0 ≤ tooth_height N := pyMul_nonneg _ _ (by norm_num)
  have h3 : box_size N ≤ (N : ℤ) := pyMul_le_self _ _ (by norm_num) (by norm_num)
  simp only [zipper_bottom, zipper_top, box_bottom]
  omega

theorem create_icon_isSome_of_gap (N : ℕ) (hgap : 1 ≤ tooth_gap N) :
    (create_icon N).isSome := by
  have h := zipperTeeth_some_of_gap N hgap
  rcases hz : zipperTeeth N with _ | teeth
  · rw [hz] at h
    simp at h
  · simp [create_icon, hz]

theorem drawRect_size (i : Img) (a b c d : ℤ) (f : RGBA) :
    (drawRect i a b c d f).size = i.size := rfl

theorem drawEllipse_size (i : Img) (a b c d : ℤ) (f : RGBA) :
    (drawEllipse i a b c d f).size = i.size := rfl

theorem drawPolygon_size (i : Img) (pts : List (ℤ × ℤ)) (f : RGBA) :
    (drawPolygon i pts f).size = i.size := rfl

theorem draw_rounded_rect_size (i : Img) (a b c d e : ℤ) (f : RGBA) :
    (draw_rounded_rect i a b c d e f).size = i.size := rfl

theorem create_gradient_size (N : ℕ) (c1 c2 : RGB) :
    (create_gradient N c1 c2).size = N := rfl

theorem foldl_drawRect_size (l : List Tooth) :
    ∀ i : Img,
      (l.foldl (fun im t => drawRect im t.x0 t.y0 t.x1 t.y1 t.fill) i).size = i.size := by
  induction l with
  | nil => intro i; rfl
  | cons t ts ih =>
    intro i
    rw [List.foldl_cons, ih]
    rfl

/-! Claim theorems. -/

/-- C3: after the export loop runs on the reference size table, the
manifest's images array has exactly one entry per size spec (15 of them),
in table order, each carrying that spec's filename, idiom, scale string
and logical-size string, and the info record is the fixed
`{author: "xcode", version: 1}`. -/
theorem C3_manifest_contents :
    contentsImages =
      ([⟨"icon_20x20.png", "iphone", "1x", "20x20"⟩,
        ⟨"icon_40x40.png", "iphone", "2x", "20x20"⟩,
        ⟨"icon_60x60.png", "iphone", "3x", "20x20"⟩,
        ⟨"icon_29x29.png", "iphone", "1x", "29x29"⟩,
        ⟨"icon_58x58.png", "iphone", "2x", "29x29"⟩,
        ⟨"icon_87x87.png", "iphone", "3x", "29x29"⟩,
        ⟨"icon_40x40.png", "iphone", "1x", "40x40"⟩,
        ⟨"icon_80x80.png", "iphone", "2x", "40x40"⟩,
        ⟨"icon_120x120.png", "iphone", "3x", "40x40"⟩,
        ⟨"icon_120x120.png", "iphone", "2x", "60x60"⟩,
        ⟨"icon_180x180.png", "iphone", "3x", "60x60"⟩,
        ⟨"icon_76x76.png", "ipad", "1x", "76x76"⟩,
        ⟨"icon_152x152.png", "ipad", "2x", "76x76"⟩,
        ⟨"icon_167x167.png", "ipad", "2x", "83.5x83.5"⟩,
        ⟨"icon_1024x1024.png", "ios-marketing", "1x", "1024x1024"⟩] :
        List ManifestEntry) ∧
    contentsImages.length = sizes.length ∧
    contentsInfo = ("xcode", 1) := by
  with_unfolding_all decide

/-- C4 (amended): the export pipeline renders the master once at the
hardcoded side length 1024, which for the reference size table happens to
equal the maximum actual size. -/
theorem C4_master_size :
    (renderedMaster sizes).map Img.size = some (maxActualSize sizes).toNat ∧
    maxActualSize sizes = 1024 := by
  with_unfolding_all decide

/-- C4 counterexample: the master's side length is not computed from the
size spec list — for the table containing only the spec (512, 1), whose
maximum actual size is 512, the master is still rendered at 1024. -/
theorem C4_counterexample :
    maxActualSize [((512 : ℚ), 1)] = 512 ∧
    (renderedMaster [((512 : ℚ), 1)]).map Img.size = some 1024 ∧
    (1024 : ℤ) ≠ 512 := by
  with_unfolding_all decide

/-- C5 (amended): the output filenames of the reference table are derived
deterministically from the actual pixel size alone, but they are not
pairwise unique: the explicit list below contains `icon_40x40.png` twice
(from specs (20, 2) and (40, 1)) and `icon_120x120.png` twice (from specs
(40, 3) and (60, 2)). -/
theorem C5_filenames_deterministic :
    outputFilenames =
      ["icon_20x20.png", "icon_40x40.png", "icon_60x60.png", "icon_29x29.png",
       "icon_58x58.png", "icon_87x87.png", "icon_40x40.png", "icon_80x80.png",
       "icon_120x120.png", "icon_120x120.png", "icon_180x180.png", "icon_76x76.png",
       "icon_152x152.png", "icon_167x167.png", "icon_1024x1024.png"] ∧
    (∀ p q : ℚ × ℕ, p ∈ sizes → q ∈ sizes → actual_size p = actual_size q →
      iconFilename (actual_size p) = iconFilename (actual_size q)) := by
  constructor
  · with_unfolding_all decide
  · intro p q _ _ h
    rw [h]

/-- C5 witness: the determinism statement applied to the colliding specs
(20, 2) and (40, 1), whose shared actual size 40 forces equal filenames. -/
theorem C5_witness :
    iconFilename (actual_size ((20 : ℚ), 2)) = iconFilename (actual_size ((40 : ℚ), 1)) :=
  C5_filenames_deterministic.2 ((20 : ℚ), 2) ((40 : ℚ), 1)
    (by with_unfolding_all decide) (by with_unfolding_all decide)
    (by with_unfolding_all decide)

/-- C5 counterexample: the filenames of the reference table are not
pairwise unique — positions 1 and 6 both hold `icon_40x40.png`. -/
theorem C5_counterexample :
    outputFilenames.get? 1 = some "icon_40x40.png" ∧
    outputFilenames.get? 6 = some "icon_40x40.png" ∧
    ¬outputFilenames.Nodup := by
  with_unfolding_all decide

/-- C6: the manifest idiom is a function of the logical size alone:
1024 maps to the store-listing family overriding everything else, the set
{20, 29, 40, 60} maps to the phone family, and every other logical size to
the tablet family; in particular 20 ↦ iphone, 76 ↦ ipad,
1024 ↦ ios-marketing. -/
theorem C6_idiom_rule :
    (∀ b : ℚ, idiomOf b = idiomSpec b) ∧
    idiomOf 20 = "iphone" ∧ idiomOf 76 = "ipad" ∧ idiomOf 1024 = "ios-marketing" := by
  refine ⟨fun b => ?_, ?_, ?_, ?_⟩
  · simp only [idiomOf, idiomSpec]
  · with_unfolding_all decide
  · with_unfolding_all decide
  · with_unfolding_all decide

/-- C10: the zipper-teeth while-loop terminates for every side length whose
tooth gap is at least one pixel — `int(0.06 * N) ≥ 1` holds exactly for
`N ≥ 17` — because the cursor advances by `tooth_gap ≥ 1` each iteration
until it reaches `zipper_bottom - tooth_height`; hence `create_icon N` is
total (returns `some`) for all such `N`. -/
theorem C10_teeth_loop_terminates :
    (∀ N : ℕ, 1 ≤ tooth_gap N ↔ 17 ≤ N) ∧
    (∀ N : ℕ, 17 ≤ N → (zipperTeeth N).isSome ∧ (create_icon N).isSome) :=
  ⟨tooth_gap_one_iff, fun N h =>
    ⟨zipperTeeth_some_of_gap N ((tooth_gap_one_iff N).mpr h),
     create_icon_isSome_of_gap N ((tooth_gap_one_iff N).mpr h)⟩⟩

/-- C10 witness: at the threshold side length 17 the loop terminates and
the renderer is total. -/
theorem C10_witness : (zipperTeeth 17).isSome ∧ (create_icon 17).isSome :=
  C10_teeth_loop_terminates.2 17 (by norm_num)

/-- C2 (amended): whenever the renderer returns (in particular for every
`N ≥ 17`, see C10), the canvas has exactly N×N pixels, and every pixel is
fully opaque immediately after the gradient background fill; the claim's
stronger statement that the *returned* canvas is opaque everywhere is
false, because the box is later painted with alpha 230
(see the counterexample). -/
theorem C2_canvas_size_and_background_opacity (N : ℕ) (img : Img)
    (h : create_icon N = some img) :
    img.size = N ∧
    (∀ x y : ℤ, inBounds N x y →
      ((create_gradient N color1 color2).pix x y).2.2.2 = 255) := by
  constructor
  · rcases hz : zipperTeeth N with _ | teeth
    · rw [create_icon, hz] at h
      simp at h
    · rw [create_icon, hz] at h
      simp only [Option.map_some'] at h
      injection h with h'
      subst h'
      simp only [drawEllipse_size, drawPolygon_size, foldl_drawRect_size,
        draw_rounded_rect_size, create_gradient_size]
  · intro x y hxy
    simp [create_gradient, hxy, gradPixel]

/-- C2 witness: at side length 32 the renderer returns a 32×32 canvas. -/
theorem C2_witness : ((create_icon 32).getD blankImg).size = 32 :=
  (C2_canvas_size_and_background_opacity 32 ((create_icon 32).getD blankImg)
    (by with_unfolding_all rfl)).1

/-- C2 counterexample: the canvas `create_icon` returns is not opaque
everywhere — at N = 1024 the pixel (400, 700) lies inside the rounded box
and outside every later opaque shape, so its final value is the box fill
(255, 255, 255, 230), whose alpha 230 is not 255. -/
theorem C2_counterexample :
    (create_icon 1024).map (fun i => i.pix 400 700) = some (255, 255, 255, 230) ∧
    ((255 : ℤ), (255 : ℤ), (255 : ℤ), (230 : ℤ)).2.2.2 ≠ 255 := by
  with_unfolding_all decide

/-- C1: for every size spec of the reference table, in table order, the
export loop saves exactly one image whose side length is
`round(logical * scale)` under the name `icon_WxW.png` built from that
same actual pixel size W (for the reference table, Python's `int`
truncation agrees with `round` since every product is integral); this
holds for any resampling kernel because PIL's resize fixes the output
dimensions. -/
theorem C1_export_dimensions (r : Resampler) :
    (savedFiles r).map (fun l => l.map fun w => (w.1, w.2.size)) =
      some (sizes.map fun p =>
        (iconFilename (round (p.1 * (p.2 : ℚ))), (round (p.1 * (p.2 : ℚ))).toNat)) := by
  rcases hm : create_icon 1024 with _ | master
  · have h := create_icon_isSome_of_gap 1024 (by with_unfolding_all decide)
    rw [hm] at h
    simp at h
  · rw [savedFiles, hm]
    simp only [Option.map_some', List.map_map, Function.comp_def, pilResize]
    with_unfolding_all decide

theorem gradPixel_corner (N : ℕ) (hN : 1 ≤ N) :
    gradPixel N color1 color2 ((N : ℤ) - 1) ((N : ℤ) - 1) =
      (pyInt (118 - 16 / (N : ℚ)), pyInt (75 + 51 / (N : ℚ)),
       pyInt (162 + 72 / (N : ℚ)), 255) := by
  have hn0 : (0 : ℚ) < (N : ℚ) := by exact_mod_cast hN
  simp only [gradPixel, color1, color2]
  congr 1
  · apply congrArg pyInt
    push_cast
    field_simp
    ring
  congr 1
  · apply congrArg pyInt
    push_cast
    field_simp
    ring
  congr 1
  · apply congrArg pyInt
    push_cast
    field_simp
    ring

theorem corner_red (N : ℕ) (hN : 16 ≤ N) : pyInt (118 - 16 / (N : ℚ)) = 117 := by
  have hn0 : (0 : ℚ) < (N : ℚ) := by exact_mod_cast (by omega : 0 < N)
  have h16 : (16 : ℚ) ≤ (N : ℚ) := by exact_mod_cast hN
  have hle : 16 / (N : ℚ) ≤ 1 := by rw [div_le_one hn0]; linarith
  have hpos : 0 < 16 / (N : ℚ) := by positivity
  rw [pyInt_eq_floor _ (by linarith)]
  rw [Int.floor_eq_iff]
  constructor
  · push_cast; linarith
  · push_cast; linarith

theorem corner_green (N : ℕ) (hN : 26 ≤ N) :
    75 ≤ pyInt (75 + 51 / (N : ℚ)) ∧ pyInt (75 + 51 / (N : ℚ)) ≤ 76 := by
  have hn0 : (0 : ℚ) < (N : ℚ) := by exact_mod_cast (by omega : 0 < N)
  have h26 : (26 : ℚ) ≤ (N : ℚ) := by exact_mod_cast hN
  have hpos : 0 ≤ 51 / (N : ℚ) := by positivity
  have hlt : 51 / (N : ℚ) < 2 := by rw [div_lt_iff₀ hn0]; linarith
  rw [pyInt_eq_floor _ (by linarith)]
  constructor
  · exact Int.le_floor.mpr (by push_cast; linarith)
  · have : ⌊(75 : ℚ) + 51 / (N : ℚ)⌋ < 77 := Int.floor_lt.mpr (by push_cast; linarith)
    omega

theorem corner_blue (N : ℕ) (hN : 37 ≤ N) :
    162 ≤ pyInt (162 + 72 / (N : ℚ)) ∧ pyInt (162 + 72 / (N : ℚ)) ≤ 163 := by
  have hn0 : (0 : ℚ) < (N : ℚ) := by exact_mod_cast (by omega : 0 < N)
  have h37 : (37 : ℚ) ≤ (N : ℚ) := by exact_mod_cast hN
  have hpos : 0 ≤ 72 / (N : ℚ) := by positivity
  have hlt : 72 / (N : ℚ) < 2 := by rw [div_lt_iff₀ hn0]; linarith
  rw [pyInt_eq_floor _ (by linarith)]
  constructor
  · exact Int.le_floor.mpr (by push_cast; linarith)
  · have : ⌊(162 : ℚ) + 72 / (N : ℚ)⌋ < 164 := Int.floor_lt.mpr (by push_cast; linarith)
    omega

/-- C7 (amended): for every side length `N ≥ 1` the gradient's pixel
(0, 0) is exactly the start colour (102, 126, 234) at alpha 255, and for
every `N ≥ 37` the pixel (N-1, N-1) is within 1 unit per channel of the
end colour (118, 75, 162) at alpha 255; the 37 bound is tight
(see the counterexample at N = 36, and N = 2 against the original
claim). -/
theorem C7_gradient_endpoints (N : ℕ) (hN : 1 ≤ N) :
    (create_gradient N color1 color2).pix 0 0 = (102, 126, 234, 255) ∧
    (37 ≤ N →
      (((create_gradient N color1 color2).pix ((N : ℤ) - 1) ((N : ℤ) - 1)).1 - 118).natAbs ≤ 1 ∧
      (((create_gradient N color1 color2).pix ((N : ℤ) - 1) ((N : ℤ) - 1)).2.1 - 75).natAbs ≤ 1 ∧
      (((create_gradient N color1 color2).pix ((N : ℤ) - 1) ((N : ℤ) - 1)).2.2.1 - 162).natAbs
        ≤ 1 ∧
      ((create_gradient N color1 color2).pix ((N : ℤ) - 1) ((N : ℤ) - 1)).2.2.2 = 255) := by
  have hb0 : inBounds N 0 0 := by
    unfold inBounds
    refine ⟨le_refl 0, ?_, le_refl 0, ?_⟩ <;> exact_mod_cast (by omega : (0 : ℕ) < N)
  constructor
  · simp only [create_gradient, if_pos hb0]
    simp [gradPixel, color1, color2]
    norm_num [pyInt]
  · intro h37
    have hb1 : inBounds N ((N : ℤ) - 1) ((N : ℤ) - 1) := by
      unfold inBounds
      have h37z : (37 : ℤ) ≤ (N : ℤ) := by exact_mod_cast h37
      refine ⟨by omega, by omega, by omega, by omega⟩
    have hcorner : (create_gradient N color1 color2).pix ((N : ℤ) - 1) ((N : ℤ) - 1) =
        (pyInt (118 - 16 / (N : ℚ)), pyInt (75 + 51 / (N : ℚ)),
         pyInt (162 + 72 / (N : ℚ)), 255) := by
      simp only [create_gradient, if_pos hb1]
      exact gradPixel_corner N (by omega)
    refine ⟨?_, ?_, ?_, ?_⟩
    · rw [hcorner]
      show (pyInt (118 - 16 / (N : ℚ)) - 118).natAbs ≤ 1
      have := corner_red N (by omega)
      omega
    · rw [hcorner]
      show (pyInt (75 + 51 / (N : ℚ)) - 75).natAbs ≤ 1
      have := corner_green N (by omega)
      omega
    · rw [hcorner]
      show (pyInt (162 + 72 / (N : ℚ)) - 162).natAbs ≤ 1
      have := corner_blue N h37
      omega
    · rw [hcorner]

/-- C7 witness: at N = 37 both clauses of the amended property apply —
pixel (0, 0) is the start colour and the corner's blue channel is within
1 of the end colour's. -/
theorem C7_witness :
    (create_gradient 37 color1 color2).pix 0 0 = (102, 126, 234, 255) ∧
    (((create_gradient 37 color1 color2).pix ((37 : ℤ) - 1) ((37 : ℤ) - 1)).2.2.1 - 162).natAbs
      ≤ 1 :=
  ⟨(C7_gradient_endpoints 37 (by norm_num)).1,
   (((C7_gradient_endpoints 37 (by norm_num)).2 (by norm_num)).2.2).1⟩

/-- C7 counterexample: the claim quantifies over every side length N > 0,
but at N = 2 the last pixel (1, 1) is (110, 100, 198), whose green channel
100 differs from the end colour's 75 by 25 — far outside the claimed
1-unit tolerance; and the amended bound N ≥ 37 is tight, since at N = 36
the corner pixel is (117, 76, 164), whose blue channel 164 is 2 units from
162. -/
theorem C7_counterexample :
    (create_gradient 2 color1 color2).pix 1 1 = (110, 100, 198, 255) ∧
    ¬((100 : ℤ) - 75).natAbs ≤ 1 ∧
    (create_gradient 36 color1 color2).pix 35 35 = (117, 76, 164, 255) ∧
    ¬((164 : ℤ) - 162).natAbs ≤ 1 := by
  with_unfolding_all decide

theorem teethLoopAux_char (N : ℕ) :
    ∀ (fuel : ℕ) (y : ℤ) (togg : Bool) (acc l : List Tooth),
      teethLoopAux N fuel y togg acc = some l →
      ∃ k : ℕ,
        l = acc ++ (List.range k).map
            (fun i : ℕ => teethStep N (y + (i : ℤ) * tooth_gap N) (xor togg (decide (i % 2 = 1))))
        ∧ (∀ i : ℕ, i < k → y + (i : ℤ) * tooth_gap N < zipper_bottom N - tooth_height N)
        ∧ ¬(y + (k : ℤ) * tooth_gap N < zipper_bottom N - tooth_height N) := by
  intro fuel
  induction fuel with
  | zero =>
    intro y togg acc l h
    simp [teethLoopAux] at h
  | succ n ih =>
    intro y togg acc l h
    rw [teethLoopAux] at h
    split at h
    case isTrue hy =>
      obtain ⟨k, hk1, hk2, hk3⟩ := ih (y + tooth_gap N) (!togg) (acc ++ [teethStep N y togg]) l h
      refine ⟨k + 1, ?_, ?_, ?_⟩
      · rw [hk1, List.append_assoc]
        congr 1
        rw [List.range_succ_eq_map, List.map_cons, List.map_map, List.singleton_append]
        congr 1
        · simp [teethStep]
        · apply List.map_congr_left
          intro i _
          simp only [Function.comp_apply]
          have hcast : y + ((Nat.succ i : ℕ) : ℤ) * tooth_gap N
              = y + tooth_gap N + (i : ℤ) * tooth_gap N := by
            push_cast
            ring
          rcases Nat.mod_two_eq_zero_or_one i with h2 | h2
          · have h3 : (Nat.succ i) % 2 = 1 := by omega
            rw [h3, h2, hcast]
            cases togg <;> rfl
          · have h3 : (Nat.succ i) % 2 = 0 := by omega
            rw [h3, h2, hcast]
            cases togg <;> rfl
      · intro i hi
        rcases i with _ | j
        · simpa using hy
        · have hj := hk2 j (by omega)
          have hcast : y + ((Nat.succ j : ℕ) : ℤ) * tooth_gap N
              = y + tooth_gap N + (j : ℤ) * tooth_gap N := by
            push_cast
            ring
          rw [hcast]
          exact hj
      · intro hcon
        apply hk3
        have hcast : y + ((k + 1 : ℕ) : ℤ) * tooth_gap N
            = y + tooth_gap N + (k : ℤ) * tooth_gap N := by
          push_cast
          ring
        rw [hcast] at hcon
        exact hcon
    case isFalse hy =>
      injection h with h'
      subst h'
      refine ⟨0, by simp, ?_, ?_⟩
      · intro i hi
        omega
      · simpa using hy

/-- C8 (amended): whenever the teeth loop returns, tooth `i` (0-based)
matches `toothSpec`: teeth alternate left/right starting with a left tooth,
each is `tooth_height = int(0.04*N)` tall, successive teeth start
`tooth_gap = int(0.06*N)` apart vertically, left teeth carry the start
colour and right teeth the end colour at alpha 255, and each tooth spans
horizontally from 2 to `zipper_width = int(0.08*N)` pixels away from the
centreline — so its drawn width is `int(0.08*N) - 2`, not the claimed
`0.08*N` (see the counterexample).  The loop starts at
`zipper_top = box_top + int(0.08*N)` and emits exactly the teeth whose
start stays below `zipper_bottom - tooth_height`, stopping at the first
cursor value that does not. -/
theorem C8_zipper_teeth (N : ℕ) (l : List Tooth) (h : zipperTeeth N = some l) :
    (∀ (i : ℕ) (hi : i < l.length), l[i] = toothSpec N i) ∧
    (∀ i : ℕ, i < l.length →
      zipper_top N + (i : ℤ) * tooth_gap N < zipper_bottom N - tooth_height N) ∧
    ¬(zipper_top N + (l.length : ℤ) * tooth_gap N < zipper_bottom N - tooth_height N) := by
  obtain ⟨k, hk1, hk2, hk3⟩ := teethLoopAux_char N (N + 2) (zipper_top N) true [] l h
  rw [List.nil_append] at hk1
  subst hk1
  refine ⟨?_, ?_, ?_⟩
  · intro i hi
    have hik : i < k := by simpa using hi
    rw [List.getElem_map]
    rw [List.getElem_range]
    rcases Nat.mod_two_eq_zero_or_one i with h2 | h2 <;>
      simp [teethStep, toothSpec, h2, withAlpha, color1, color2]
  · intro i hi
    exact hk2 i (by simpa using hi)
  · simpa using hk3

/-- C8 witness: at N = 1024 the loop's first tooth exists, i.e. the start
cursor lies strictly below the stop bound. -/
theorem C8_witness :
    zipper_top 1024 + ((0 : ℕ) : ℤ) * tooth_gap 1024
      < zipper_bottom 1024 - tooth_height 1024 :=
  (C8_zipper_teeth 1024 ((zipperTeeth 1024).getD []) (by with_unfolding_all rfl)).2.1 0
    (by with_unfolding_all decide)

/-- C8 counterexample: the claim says each tooth is a rectangle of width
`0.08*N`; at N = 1024 that is `int(0.08*1024) = 81`, but every tooth the
loop draws spans only 79 — the rectangles stop 2 pixels short of the
centreline (`zipper_x - 2` resp. `zipper_x + 2`). -/
theorem C8_counterexample :
    (zipperTeeth 1024).map (List.map fun t => t.x1 - t.x0) =
      some [79, 79, 79, 79, 79, 79] ∧
    pyMul 1024 0.08 = 81 ∧ (79 : ℤ) ≠ 81 := by
  with_unfolding_all decide

theorem foldl_saveStep_none (r : Resampler) (master : Img) :
    ∀ (l : List (ℚ × ℕ)) (fs : FS) (q : String),
      lastSave r master l q = none →
      (l.foldl (saveStep r master) fs) q = fs q := by
  intro l
  induction l with
  | nil =>
    intro fs q _
    rfl
  | cons p t ih =>
    intro fs q h
    rw [lastSave] at h
    cases hls : lastSave r master t q with
    | some d =>
      rw [hls] at h
      simp at h
    | none =>
      rw [hls] at h
      simp only [Option.none_or] at h
      rw [List.foldl_cons, ih _ _ hls]
      split at h
      · rename_i hq
        simp at h
      · rename_i hq
        simp [saveStep, fsWrite, hq]

theorem foldl_saveStep_some (r : Resampler) (master : Img) :
    ∀ (l : List (ℚ × ℕ)) (fs : FS) (q : String) (d : FileData),
      lastSave r master l q = some d →
      (l.foldl (saveStep r master) fs) q = some d := by
  intro l
  induction l with
  | nil =>
    intro fs q d h
    simp [lastSave] at h
  | cons p t ih =>
    intro fs q d h
    rw [lastSave] at h
    cases hls : lastSave r master t q with
    | some d' =>
      rw [hls] at h
      simp only [Option.or_some] at h
      injection h with h'
      subst h'
      rw [List.foldl_cons]
      exact ih _ _ _ hls
    | none =>
      rw [hls] at h
      simp only [Option.none_or] at h
      split at h
      · rename_i hq
        injection h with h'
        subst h'
        rw [List.foldl_cons, foldl_saveStep_none r master t _ q hls]
        simp [saveStep, fsWrite, hq]
      · rename_i hq
        simp at h

/-- C9: the pipeline is deterministic — the data written to every output
path is a function of the compiled-in constants alone (and of the fixed
resampling kernel), so two runs over any two starting directory states
agree on all paths the pipeline writes and leave every other path
untouched; in particular two runs into the same empty directory produce
identical manifests and identical images. -/
theorem C9_pipeline_deterministic (r : Resampler) (fs₁ fs₂ g₁ g₂ : FS)
    (h₁ : runMain r fs₁ = some g₁) (h₂ : runMain r fs₂ = some g₂) (q : String) :
    g₁ q = g₂ q ∨ (g₁ q = fs₁ q ∧ g₂ q = fs₂ q) := by
  rw [runMain] at h₁ h₂
  rcases hm : renderedMaster sizes with _ | master
  · rw [hm] at h₁
    simp at h₁
  · rw [hm] at h₁ h₂
    simp only [Option.map_some'] at h₁ h₂
    injection h₁ with e₁
    injection h₂ with e₂
    subst e₁
    subst e₂
    by_cases hq : q = pathJoin output_dir "Contents.json"
    · left
      simp [fsWrite, hq]
    · cases hls : lastSave r master sizes q with
      | none =>
        right
        constructor <;>
          simp [fsWrite, hq, foldl_saveStep_none r master sizes _ q hls]
      | some d =>
        left
        simp only [fsWrite, if_neg hq]
        rw [foldl_saveStep_some r master sizes _ q _ hls,
          foldl_saveStep_some r master sizes _ q _ hls]

/-- C9 witness: two runs with a trivial resampling kernel, one into the
empty directory and one into a pre-populated directory, agree at the
manifest path (or both left it untouched). -/
theorem C9_witness :
    ((runMain zeroResampler emptyFS).getD emptyFS) (pathJoin output_dir "Contents.json") =
      ((runMain zeroResampler dirtyFS).getD emptyFS) (pathJoin output_dir "Contents.json") ∨
    (((runMain zeroResampler emptyFS).getD emptyFS) (pathJoin output_dir "Contents.json")
        = emptyFS (pathJoin output_dir "Contents.json") ∧
     ((runMain zeroResampler dirtyFS).getD emptyFS) (pathJoin output_dir "Contents.json")
        = dirtyFS (pathJoin output_dir "Contents.json")) :=
  C9_pipeline_deterministic zeroResampler emptyFS dirtyFS
    ((runMain zeroResampler emptyFS).getD emptyFS)
    ((runMain zeroResampler dirtyFS).getD emptyFS)
    (by with_unfolding_all rfl) (by with_unfolding_all rfl)
    (pathJoin output_dir "Contents.json")
